import Mathlib

/-!
Verification development for the workout-api repository: a CRUD REST API
over athletes ("Atleta"), categories ("Categoria") and training centers
("Centro de Treinamento").

The controllers under `src/workout_api` are embedded shallowly:

* The relational store is a `DB` value holding the three tables as lists;
  `.scalars().first()` on a `select(...).filter_by(...)` becomes `List.find?`.
* UUIDs (`uuid4()`) and timestamps (`datetime.now(...)`) are opaque naturals
  supplied to the handler as explicit parameters.
* The database session is asynchronous: in `post` the controller writes
  `await db_session.execute(...)` and `await db_session.commit()`.  An
  awaited `commit` durably applies the handler's pending writes and may
  fail (modelled by a boolean oracle `commitOk`); a call of `commit()`,
  `delete()` or `refresh()` WITHOUT `await` — as in the `patch` and
  `delete` handlers of `atleta/controller.py` — merely builds a coroutine
  object that is discarded, so it has no effect on the store at all.
* Each handler returns both its HTTP response and the durable store left
  behind by the request (sessions are per-request, so pending uncommitted
  changes are gone when the request ends).

Schemas and models that the controllers import but whose files are not part
of the excerpt (`atleta/schemas.py`, the SQLAlchemy model files,
`contrib/dependencies.py`) are modelled from the specification and flagged
as such in their doc comments.
-/

/-- UUIDs are modelled as opaque naturals. -/
abbrev UUID := Nat

/-- Naive-UTC timestamps are modelled as opaque naturals. -/
abbrev Timestamp := Nat

/-- Modelled from the spec: Category is `\x7b id, name \x7d`, referenced by
Athlete via a foreign key; the athlete controller reads its surrogate key
`pk_id` and its `nome`. -/
structure CategoriaModel where
  pk_id : Nat
  id : UUID
  nome : String
deriving Repr, DecidableEq

/-- Modelled from the spec (TrainingCenter row: name ≤20, address ≤60,
owner ≤30, plus identifiers): the athlete controller reads `pk_id`; the
training-center controller stores `id`, `nome`, `endereco`, `proprietario`. -/
structure CentroTreinamentoModel where
  pk_id : Nat
  id : UUID
  nome : String
  endereco : String
  proprietario : String
deriving Repr, DecidableEq

/-- Modelled from the spec: the persisted Athlete row, holding the
server-generated `id` and `create_at`, the athlete's own fields
(represented by `nome` and `idade`), and nullable foreign keys to
Category and TrainingCenter. -/
structure AtletaModel where
  id : UUID
  create_at : Timestamp
  nome : String
  idade : Nat
  categoria_id : Option Nat
  centro_treinamento_id : Option Nat
deriving Repr, DecidableEq

/-- Modelled from the spec: the category sub-object of an athlete payload
(category resolved by name). -/
structure CategoriaIn where
  nome : String
deriving Repr, DecidableEq

/-- `CentroTreinamentoAtleta` from `centro_treinamento/schemas.py`: just the
center's name. -/
structure CentroTreinamentoAtleta where
  nome : String
deriving Repr, DecidableEq

/-- `CentroTreinamentoIn` from `centro_treinamento/schemas.py`. -/
structure CentroTreinamentoIn where
  nome : String
  endereco : String
  proprietario : String
deriving Repr, DecidableEq

/-- `CentroTreinamentoOut` from `centro_treinamento/schemas.py`: the input
fields plus the identifier. -/
structure CentroTreinamentoOut where
  id : UUID
  nome : String
  endereco : String
  proprietario : String
deriving Repr, DecidableEq

/-- Modelled from the spec (`atleta/schemas.py` is not in the excerpt):
create payload = athlete fields + category name + training-center name.
The athlete-specific fields are represented by `nome` and `idade`. -/
structure AtletaIn where
  nome : String
  idade : Nat
  categoria : CategoriaIn
  centro_treinamento : CentroTreinamentoAtleta
deriving Repr, DecidableEq

/-- Modelled from the spec: output representation = server-generated `id`
and `create_at` plus all input fields. -/
structure AtletaOut where
  id : UUID
  create_at : Timestamp
  nome : String
  idade : Nat
  categoria : CategoriaIn
  centro_treinamento : CentroTreinamentoAtleta
deriving Repr, DecidableEq

/-- Modelled from the spec: partial-update payload, every field optional;
`none` stands for a field omitted from the payload (excluded by
`model_dump(exclude_unset=True)`). -/
structure AtletaUpdate where
  nome : Option String
  idade : Option Nat
deriving Repr, DecidableEq

/-- The durable relational store: three tables plus the next surrogate key
the database will hand out. -/
structure DB where
  categorias : List CategoriaModel
  centros : List CentroTreinamentoModel
  atletas : List AtletaModel
  nextPk : Nat
deriving Repr, DecidableEq

/-- An HTTP outcome: success with a status code and body, or an
`HTTPException` with a status code and a `detail` message. -/
inductive Response (α : Type) where
  | ok (status : Nat) (body : α)
  | err (status : Nat) (detail : String)
deriving Repr, DecidableEq

/-- Whether a response is an error (status-code class ≥ 400 raised via
`HTTPException` or an unhandled exception). -/
def Response.isErr {α : Type} : Response α → Bool
  | .ok _ _ => false
  | .err _ _ => true

/-- `select(CategoriaModel).filter_by(nome=...)` followed by
`.scalars().first()`. -/
def findCategoriaByNome (db : DB) (nome : String) : Option CategoriaModel :=
  db.categorias.find? (fun c => c.nome == nome)

/-- `select(CentroTreinamentoModel).filter_by(nome=...)` followed by
`.scalars().first()`. -/
def findCentroByNome (db : DB) (nome : String) : Option CentroTreinamentoModel :=
  db.centros.find? (fun c => c.nome == nome)

/-- `select(AtletaModel).filter_by(id=...)` followed by `.scalars().first()`. -/
def findAtletaById (db : DB) (id : UUID) : Option AtletaModel :=
  db.atletas.find? (fun a => a.id == id)

/-- `select(CentroTreinamentoModel).filter_by(id=...)` followed by
`.scalars().first()`. -/
def findCentroById (db : DB) (id : UUID) : Option CentroTreinamentoModel :=
  db.centros.find? (fun c => c.id == id)

/-- `AtletaModel(**atleta_out.model_dump(exclude=\x7b"categoria",
"centro_treinamento"\x7d))`: a row built from the output schema, with the
foreign keys still unset (they are assigned right afterwards). -/
def atletaModelOfOut (out : AtletaOut) : AtletaModel :=
  { id := out.id
    create_at := out.create_at
    nome := out.nome
    idade := out.idade
    categoria_id := none
    centro_treinamento_id := none }

/-- Serialization of a stored athlete row through `AtletaOut`
(`AtletaOut.model_validate(atleta)` /  the `response_model`): the nested
`categoria` and `centro_treinamento` objects are read through the row's
foreign keys. Fails (`none`) when a foreign key is null or dangling. -/
def atletaOutOfModel (db : DB) (a : AtletaModel) : Option AtletaOut :=
  match a.categoria_id.bind (fun pk => db.categorias.find? (fun c => c.pk_id == pk)),
        a.centro_treinamento_id.bind (fun pk => db.centros.find? (fun c => c.pk_id == pk)) with
  | some c, some ct =>
      some { id := a.id
             create_at := a.create_at
             nome := a.nome
             idade := a.idade
             categoria := { nome := c.nome }
             centro_treinamento := { nome := ct.nome } }
  | _, _ => none

/-- `AtletaOut(id=uuid4(), create_at=datetime.now(timezone.utc)...,
**atleta_in.model_dump())`: the output representation built in `post` from
the fresh identifier, the current time, and the payload's own fields. -/
def mkAtletaOut (atleta_in : AtletaIn) (freshId : UUID) (now : Timestamp) : AtletaOut :=
  { id := freshId
    create_at := now
    nome := atleta_in.nome
    idade := atleta_in.idade
    categoria := atleta_in.categoria
    centro_treinamento := atleta_in.centro_treinamento }

/-- The row inserted by `post`: `AtletaModel(**atleta_out.model_dump(...))`
followed by the two foreign-key assignments
`atleta_model.categoria_id = categoria.pk_id` and
`atleta_model.centro_treinamento_id = centro_treinamento.pk_id`. -/
def mkAtletaModel (atleta_in : AtletaIn) (freshId : UUID) (now : Timestamp)
    (catPk ctPk : Nat) : AtletaModel :=
  { atletaModelOfOut (mkAtletaOut atleta_in freshId now) with
      categoria_id := some catPk
      centro_treinamento_id := some ctPk }

/-- `POST /atletas/` (`atleta/controller.py`, `post`): look up the category
by name (400 naming it if absent), then the training center by name (400
naming it if absent); build `AtletaOut` from a fresh `uuid4()` value, the
current time, and the payload; build the row, set both foreign keys, `add`
and `await commit`.  A failing commit is caught by the `try/except` and
reported as a generic 500; the pending insert is then never durable. -/
def atletaPost (db : DB) (atleta_in : AtletaIn) (freshId : UUID)
    (now : Timestamp) (commitOk : Bool) : Response AtletaOut × DB :=
  match findCategoriaByNome db atleta_in.categoria.nome with
  | none =>
      (.err 400 ("A categoria \x27" ++ atleta_in.categoria.nome ++ "\x27 não foi encontrada."), db)
  | some categoria =>
    match findCentroByNome db atleta_in.centro_treinamento.nome with
    | none =>
        (.err 400 ("O centro de treinamento \x27" ++ atleta_in.centro_treinamento.nome ++ "\x27 não foi encontrado."), db)
    | some centro_treinamento =>
      let atleta_out : AtletaOut := mkAtletaOut atleta_in freshId now
      let atleta_model := mkAtletaModel atleta_in freshId now categoria.pk_id centro_treinamento.pk_id
      if commitOk then
        (.ok 201 atleta_out, { db with atletas := db.atletas ++ [atleta_model] })
      else
        (.err 500 "Ocorreu um erro ao inserir os dados no banco.", db)

/-- `GET /atletas/` (`get_all`): every row, serialized through `AtletaOut`.
The pagination helper is an external collaborator and is not modelled; the
handler itself is read-only and returns no new store. -/
def atletaGetAll (db : DB) : Response (List AtletaOut) :=
  match db.atletas.mapM (atletaOutOfModel db) with
  | some lista_atletas => .ok 200 lista_atletas
  | none => .err 500 "Internal Server Error"

/-- `GET /atletas/\x7bid\x7d` (`get_by_id`): find the row by `id`; 404 with a
message containing the id if absent, else the serialized row. -/
def atletaGetById (db : DB) (id : UUID) : Response AtletaOut :=
  match findAtletaById db id with
  | none => .err 404 ("Atleta não encontrado no id: " ++ toString id ++ ".")
  | some atleta =>
    match atletaOutOfModel db atleta with
    | some out => .ok 200 out
    | none => .err 500 "Internal Server Error"

/-- The `setattr` loop of `patch`: every key present in
`atleta_update.model_dump(exclude_unset=True)` overwrites the row's field;
omitted keys leave the field untouched. -/
def applyUpdate (u : AtletaUpdate) (a : AtletaModel) : AtletaModel :=
  { a with
      nome := u.nome.getD a.nome
      idade := u.idade.getD a.idade }

/-- `PATCH /atletas/\x7bid\x7d` (`patch`): find the row by `id` (404 if
absent); merge the payload's present fields into the session's row object;
then the controller calls `db_session.commit()` and
`db_session.refresh(atleta)` WITHOUT `await`, so both coroutines are
discarded and the durable store is left exactly as it was; the merged
session object is returned and serialized through `AtletaOut`. -/
def atletaPatch (db : DB) (id : UUID) (atleta_update : AtletaUpdate) :
    Response AtletaOut × DB :=
  match findAtletaById db id with
  | none => (.err 404 ("Atleta não encontrado no id: " ++ toString id ++ "."), db)
  | some atleta =>
    match atletaOutOfModel db (applyUpdate atleta_update atleta) with
    | some out => (.ok 200 out, db)
    | none => (.err 500 "Internal Server Error", db)

/-- `DELETE /atletas/\x7bid\x7d`: find the row by `id` (404 if absent); then
the controller calls `db_session.delete(atleta)` and `db_session.commit()`
WITHOUT `await`, so neither coroutine runs and the durable store keeps the
row; the handler returns 204 with no content. -/
def atletaDelete (db : DB) (id : UUID) : Response Unit × DB :=
  match findAtletaById db id with
  | none => (.err 404 ("Atleta não encontrado no id: " ++ toString id ++ "."), db)
  | some _ => (.ok 204 (), db)

/-- `CentroTreinamentoOut(id=uuid4(), **centro_treinamento_in.model_dump())`. -/
def mkCentroOut (centro_in : CentroTreinamentoIn) (freshId : UUID) : CentroTreinamentoOut :=
  { id := freshId
    nome := centro_in.nome
    endereco := centro_in.endereco
    proprietario := centro_in.proprietario }

/-- `CentroTreinamentoModel(**centro_treinamento_out.model_dump())`, with
the surrogate key assigned by the database at insert. -/
def mkCentroModel (out : CentroTreinamentoOut) (pk : Nat) : CentroTreinamentoModel :=
  { pk_id := pk
    id := out.id
    nome := out.nome
    endereco := out.endereco
    proprietario := out.proprietario }

/-- `POST /centros_treinamento/` (`centro_treinamento/controller.py`,
`post`): build `CentroTreinamentoOut` from a fresh `uuid4()` value and the
payload, build the row (its surrogate key is assigned by the database),
`add` and `await commit`.  There is no `try/except` here: a failing commit
escapes as an unhandled exception, i.e. a generic 500, and the pending
insert is never durable. -/
def centroPost (db : DB) (centro_in : CentroTreinamentoIn) (freshId : UUID)
    (commitOk : Bool) : Response CentroTreinamentoOut × DB :=
  let centro_out : CentroTreinamentoOut := mkCentroOut centro_in freshId
  let centro_model : CentroTreinamentoModel := mkCentroModel centro_out db.nextPk
  if commitOk then
    (.ok 201 centro_out,
      { db with centros := db.centros ++ [centro_model], nextPk := db.nextPk + 1 })
  else
    (.err 500 "Internal Server Error", db)

/-- `GET /centros_treinamento/\x7bid\x7d` (`get_by_id`): find the row by
`id`; 404 with a message containing the id if absent. -/
def centroGetById (db : DB) (id : UUID) : Response CentroTreinamentoOut :=
  match findCentroById db id with
  | none => .err 404 ("Centro de Treinamento não encontrado no id: " ++ toString id ++ ".")
  | some c => .ok 200 { id := c.id, nome := c.nome, endereco := c.endereco, proprietario := c.proprietario }

/-- Modelled from the spec: the category row created by the category
controller, with the surrogate key assigned by the database at insert. -/
def mkCategoriaModel (nome : String) (freshId : UUID) (pk : Nat) : CategoriaModel :=
  { pk_id := pk
    id := freshId
    nome := nome }

/-- Modelled from the spec: the Category controller (§4.3, "symmetric to
Training Center") creates a `\x7b id, name \x7d` record; the database
assigns the surrogate key. -/
def categoriaPost (db : DB) (nome : String) (freshId : UUID)
    (commitOk : Bool) : Response CategoriaModel × DB :=
  let categoria_model : CategoriaModel := mkCategoriaModel nome freshId db.nextPk
  if commitOk then
    (.ok 201 categoria_model,
      { db with categorias := db.categorias ++ [categoria_model], nextPk := db.nextPk + 1 })
  else
    (.err 500 "Internal Server Error", db)

/-- The store an empty deployment starts from. -/
def initDB : DB := { categorias := [], centros := [], atletas := [], nextPk := 0 }

/-- One request against the store: any of the exposed mutating handlers
(athlete create / partial update / delete, training-center create, and the
spec-modelled category create).  The read handlers (`get_all`,
`get_by_id`) are pure functions of the store and return no new store. -/
inductive Step : DB → DB → Prop
  | atletaPost (db : DB) (inp : AtletaIn) (freshId : UUID) (now : Timestamp)
      (commitOk : Bool) : Step db (atletaPost db inp freshId now commitOk).2
  | atletaPatch (db : DB) (id : UUID) (u : AtletaUpdate) :
      Step db (atletaPatch db id u).2
  | atletaDelete (db : DB) (id : UUID) : Step db (atletaDelete db id).2
  | centroPost (db : DB) (inp : CentroTreinamentoIn) (freshId : UUID)
      (commitOk : Bool) : Step db (centroPost db inp freshId commitOk).2
  | categoriaPost (db : DB) (nome : String) (freshId : UUID)
      (commitOk : Bool) : Step db (categoriaPost db nome freshId commitOk).2

/-- Stores reachable from the empty deployment by any sequence of requests. -/
inductive Reachable : DB → Prop
  | init : Reachable initDB
  | step {db db' : DB} : Reachable db → Step db db' → Reachable db'

/-- An athlete row carries valid, non-null foreign keys referencing exactly
one stored Category and exactly one stored TrainingCenter. -/
def FKValid (db : DB) (a : AtletaModel) : Prop :=
  (∃ pk, a.categoria_id = some pk ∧ ∃! c, c ∈ db.categorias ∧ c.pk_id = pk) ∧
  (∃ pk, a.centro_treinamento_id = some pk ∧ ∃! ct, ct ∈ db.centros ∧ ct.pk_id = pk)

/-- Store invariant: surrogate keys already handed out are below `nextPk`
and are pairwise distinct within each table, and every athlete row has
valid foreign keys. -/
def StoreInv (db : DB) : Prop :=
  (∀ c ∈ db.categorias, c.pk_id < db.nextPk) ∧
  (db.categorias.map (fun c => c.pk_id)).Nodup ∧
  (∀ ct ∈ db.centros, ct.pk_id < db.nextPk) ∧
  (db.centros.map (fun ct => ct.pk_id)).Nodup ∧
  (∀ a ∈ db.atletas, FKValid db a)

/-- Sample category row ("Scale", surrogate key 0). -/
def catRow : CategoriaModel := { pk_id := 0, id := 10, nome := "Scale" }

/-- Sample training-center row ("CT King", surrogate key 1). -/
def ctRow : CentroTreinamentoModel :=
  { pk_id := 1, id := 11, nome := "CT King", endereco := "Rua Y, Q01", proprietario := "Augusto" }

/-- Sample stored athlete row referencing `catRow` and `ctRow`. -/
def athRow : AtletaModel :=
  { id := 1, create_at := 100, nome := "Antigo", idade := 25,
    categoria_id := some 0, centro_treinamento_id := some 1 }

/-- Sample create payload naming the sample category and center. -/
def sampleIn : AtletaIn :=
  { nome := "João", idade := 25, categoria := { nome := "Scale" },
    centro_treinamento := { nome := "CT King" } }

/-- Sample training-center create payload. -/
def ctIn : CentroTreinamentoIn :=
  { nome := "CT King", endereco := "Rua Y, Q01", proprietario := "Augusto" }

/-- Store holding the sample category, center and athlete. -/
def dbFull : DB := { categorias := [catRow], centros := [ctRow], atletas := [athRow], nextPk := 2 }

/-- Store holding the sample category and center but no athletes. -/
def dbNoAth : DB := { categorias := [catRow], centros := [ctRow], atletas := [], nextPk := 2 }

/-- Store holding only the sample training center. -/
def dbCtOnly : DB := { categorias := [], centros := [ctRow], atletas := [], nextPk := 2 }

/-- Store holding only the sample category. -/
def dbCatOnly : DB := { categorias := [catRow], centros := [], atletas := [], nextPk := 1 }

theorem find?_key_nodup {α : Type} (f : α → Nat) (l : List α)
    (hn : (l.map f).Nodup) (x : α) (hx : x ∈ l) :
    l.find? (fun c => f c == f x) = some x := by
  induction l with
  | nil => cases hx
  | cons h t ih =>
    rw [List.map_cons, List.nodup_cons] at hn
    rw [List.find?_cons]
    cases hb : (f h == f x) with
    | true =>
      have hfx : f h = f x := by simpa using hb
      rcases List.mem_cons.1 hx with hx | hx
      · rw [hx]
      · exact absurd (hfx ▸ List.mem_map_of_mem f hx) hn.1
    | false =>
      have hfx : f h ≠ f x := by simpa using hb
      rcases List.mem_cons.1 hx with hx | hx
      · exact absurd (hx ▸ rfl) hfx
      · exact ih hn.2 hx

theorem existsUnique_of_mem_nodup {α : Type} {f : α → Nat} {l : List α}
    (hn : (l.map f).Nodup) {x : α} (hx : x ∈ l) :
    ∃! c, c ∈ l ∧ f c = f x :=
  ⟨x, ⟨hx, rfl⟩, fun y hy => List.inj_on_of_nodup_map hn hy.1 hx hy.2⟩

theorem nodup_map_append_fresh {α : Type} (f : α → Nat) (l : List α) (x : α) (n : Nat)
    (hb : ∀ c ∈ l, f c < n) (hx : f x = n) (hn : (l.map f).Nodup) :
    ((l ++ [x]).map f).Nodup := by
  rw [List.map_append, List.nodup_append]
  refine ⟨hn, List.nodup_singleton _, ?_⟩
  intro y hy hy1
  rcases List.mem_map.1 hy with ⟨c, hc, rfl⟩
  have h1 : f c < n := hb c hc
  have h2 : f c = n := by simpa [hx] using hy1
  omega

theorem existsUnique_append_fresh {α : Type} (f : α → Nat) (l : List α) (x : α)
    (n pk : Nat) (hb : ∀ c ∈ l, f c < n) (hx : f x = n)
    (h : ∃! c, c ∈ l ∧ f c = pk) : ∃! c, c ∈ l ++ [x] ∧ f c = pk := by
  obtain ⟨w, ⟨hw, hwpk⟩, huniq⟩ := h
  refine ⟨w, ⟨List.mem_append_left _ hw, hwpk⟩, ?_⟩
  rintro y ⟨hy, hypk⟩
  rcases List.mem_append.1 hy with hy | hy
  · exact huniq y ⟨hy, hypk⟩
  · rw [List.mem_singleton.1 hy] at hypk
    have h1 : pk < n := hwpk ▸ hb w hw
    rw [hx] at hypk
    omega

/-- Claim C2: creating an athlete whose category name matches no stored
category fails with a 400 response whose message names that category, and
the store is unchanged, regardless of the training-center table, of the
commit oracle, and of everything else in the request. -/
theorem atletaPost_categoria_not_found (db : DB) (atleta_in : AtletaIn)
    (freshId : UUID) (now : Timestamp) (commitOk : Bool)
    (h : findCategoriaByNome db atleta_in.categoria.nome = none) :
    atletaPost db atleta_in freshId now commitOk =
      (.err 400 ("A categoria \x27" ++ atleta_in.categoria.nome ++ "\x27 não foi encontrada."), db) := by
  unfold atletaPost
  rw [h]

/-- Witness for C2: a store with a matching training center but no
categories rejects the sample request with the 400 naming the category. -/
theorem atletaPost_categoria_not_found_witness :
    atletaPost dbCtOnly sampleIn 5 9 true =
      (.err 400 ("A categoria \x27" ++ sampleIn.categoria.nome ++ "\x27 não foi encontrada."), dbCtOnly) :=
  atletaPost_categoria_not_found dbCtOnly sampleIn 5 9 true (by decide)

/-- Claim C3: creating an athlete whose category name matches a stored
category but whose training-center name matches no stored center fails
with a 400 response naming the missing center, and the store — in
particular the athlete table — is unchanged. -/
theorem atletaPost_centro_not_found (db : DB) (atleta_in : AtletaIn)
    (freshId : UUID) (now : Timestamp) (commitOk : Bool) (cat : CategoriaModel)
    (hcat : findCategoriaByNome db atleta_in.categoria.nome = some cat)
    (hct : findCentroByNome db atleta_in.centro_treinamento.nome = none) :
    atletaPost db atleta_in freshId now commitOk =
      (.err 400 ("O centro de treinamento \x27" ++ atleta_in.centro_treinamento.nome ++ "\x27 não foi encontrado."), db) := by
  unfold atletaPost
  rw [hcat, hct]

/-- Witness for C3: a store with the category but no centers rejects the
sample request with the 400 naming the center, inserting nothing. -/
theorem atletaPost_centro_not_found_witness :
    atletaPost dbCatOnly sampleIn 5 9 true =
      (.err 400 ("O centro de treinamento \x27" ++ sampleIn.centro_treinamento.nome ++ "\x27 não foi encontrado."), dbCatOnly) :=
  atletaPost_centro_not_found dbCatOnly sampleIn 5 9 true catRow (by decide) (by decide)

/-- Claim C4: when both names match stored rows, the create succeeds with
status 201 and a body whose `id` is the server-generated `uuid4()` value
and whose `create_at` is the server clock reading — for every payload, so
neither can come from the payload (the create schema has no such fields) —
and the partial-update merge never changes a row's `id`, so the id is
immutable thereafter. -/
theorem atletaPost_success_generated_id (db : DB) (atleta_in : AtletaIn)
    (freshId : UUID) (now : Timestamp) (cat : CategoriaModel) (ct : CentroTreinamentoModel)
    (hcat : findCategoriaByNome db atleta_in.categoria.nome = some cat)
    (hct : findCentroByNome db atleta_in.centro_treinamento.nome = some ct) :
    (atletaPost db atleta_in freshId now true).1 = .ok 201 (mkAtletaOut atleta_in freshId now) ∧
    (mkAtletaOut atleta_in freshId now).id = freshId ∧
    (mkAtletaOut atleta_in freshId now).create_at = now ∧
    ∀ (u : AtletaUpdate) (a : AtletaModel), (applyUpdate u a).id = a.id := by
  refine ⟨?_, rfl, rfl, fun u a => rfl⟩
  unfold atletaPost
  rw [hcat, hct]
  rfl

/-- Witness for C4: the sample store accepts the sample request with 201,
id 5 and timestamp 9. -/
theorem atletaPost_success_generated_id_witness :
    (atletaPost dbNoAth sampleIn 5 9 true).1 = .ok 201 (mkAtletaOut sampleIn 5 9) ∧
    (mkAtletaOut sampleIn 5 9).id = 5 ∧
    (mkAtletaOut sampleIn 5 9).create_at = 9 ∧
    ∀ (u : AtletaUpdate) (a : AtletaModel), (applyUpdate u a).id = a.id :=
  atletaPost_success_generated_id dbNoAth sampleIn 5 9 catRow ctRow (by decide) (by decide)

/-- Claim C9: fetching an absent id returns 404 with a `detail` message
containing the requested id, for the athlete resource and for the
training-center resource alike. -/
theorem getById_not_found_names_id (db : DB) (id : UUID)
    (ha : findAtletaById db id = none) (hc : findCentroById db id = none) :
    (∃ s t, atletaGetById db id = .err 404 (s ++ toString id ++ t)) ∧
    (∃ s t, centroGetById db id = .err 404 (s ++ toString id ++ t)) := by
  unfold atletaGetById centroGetById
  rw [ha, hc]
  exact ⟨⟨"Atleta não encontrado no id: ", ".", rfl⟩,
         ⟨"Centro de Treinamento não encontrado no id: ", ".", rfl⟩⟩

/-- Witness for C9: id 3 is absent from the empty store and both 404
messages contain it. -/
theorem getById_not_found_names_id_witness :
    (∃ s t, atletaGetById initDB 3 = .err 404 (s ++ toString 3 ++ t)) ∧
    (∃ s t, centroGetById initDB 3 = .err 404 (s ++ toString 3 ++ t)) :=
  getById_not_found_names_id initDB 3 rfl rfl

/-- Claim C10: the training-center create echoes `nome`, `endereco` and
`proprietario` verbatim and adds the freshly generated id; the body is the
same for every store, i.e. it is built from the input alone, before and
independently of what the persistence layer holds. -/
theorem centroPost_echoes_input (db : DB) (centro_in : CentroTreinamentoIn) (freshId : UUID) :
    (centroPost db centro_in freshId true).1 =
      .ok 201 { id := freshId, nome := centro_in.nome, endereco := centro_in.endereco,
                proprietario := centro_in.proprietario } := rfl

theorem findAtleta_append_fresh (db : DB) (m : AtletaModel)
    (hfresh : ∀ a ∈ db.atletas, a.id ≠ m.id) :
    findAtletaById { db with atletas := db.atletas ++ [m] } m.id = some m := by
  unfold findAtletaById
  show (db.atletas ++ [m]).find? (fun a => a.id == m.id) = some m
  rw [List.find?_append]
  have h1 : db.atletas.find? (fun a => a.id == m.id) = none := by
    rw [List.find?_eq_none]
    intro a ha
    simpa using hfresh a ha
  rw [h1, List.find?_singleton]
  simp

theorem atletaOutOfModel_eq (db : DB) (a : AtletaModel) (catPk ctPk : Nat)
    (c : CategoriaModel) (t : CentroTreinamentoModel)
    (ha1 : a.categoria_id = some catPk) (ha2 : a.centro_treinamento_id = some ctPk)
    (hfc : db.categorias.find? (fun x => x.pk_id == catPk) = some c)
    (hft : db.centros.find? (fun x => x.pk_id == ctPk) = some t) :
    atletaOutOfModel db a =
      some { id := a.id, create_at := a.create_at, nome := a.nome, idade := a.idade,
             categoria := { nome := c.nome }, centro_treinamento := { nome := t.nome } } := by
  unfold atletaOutOfModel
  rw [ha1, ha2, Option.some_bind, Option.some_bind, hfc, hft]

/-- Claim C5: with both lookups succeeding, surrogate keys unique in each
referenced table, and the generated id fresh, the body returned by the
create is field-for-field identical to the body a subsequent get-by-id on
the generated id returns from the store the create left behind. -/
theorem atletaPost_getById_roundtrip (db : DB) (atleta_in : AtletaIn)
    (freshId : UUID) (now : Timestamp) (cat : CategoriaModel) (ct : CentroTreinamentoModel)
    (hcat : findCategoriaByNome db atleta_in.categoria.nome = some cat)
    (hct : findCentroByNome db atleta_in.centro_treinamento.nome = some ct)
    (hnodupC : (db.categorias.map (fun c => c.pk_id)).Nodup)
    (hnodupT : (db.centros.map (fun c => c.pk_id)).Nodup)
    (hfresh : ∀ a ∈ db.atletas, a.id ≠ freshId) :
    (atletaPost db atleta_in freshId now true).1 = .ok 201 (mkAtletaOut atleta_in freshId now) ∧
    atletaGetById (atletaPost db atleta_in freshId now true).2 freshId =
      .ok 200 (mkAtletaOut atleta_in freshId now) := by
  have hcatMem : cat ∈ db.categorias := List.mem_of_find?_eq_some hcat
  have hctMem : ct ∈ db.centros := List.mem_of_find?_eq_some hct
  have hcatNome : cat.nome = atleta_in.categoria.nome := by
    simpa using List.find?_some hcat
  have hctNome : ct.nome = atleta_in.centro_treinamento.nome := by
    simpa using List.find?_some hct
  have h2 : (atletaPost db atleta_in freshId now true).2 =
      { db with atletas := db.atletas ++ [mkAtletaModel atleta_in freshId now cat.pk_id ct.pk_id] } := by
    unfold atletaPost
    rw [hcat, hct]
    rfl
  refine ⟨?_, ?_⟩
  · unfold atletaPost
    rw [hcat, hct]
    rfl
  · rw [h2]
    have hfind : findAtletaById
        { db with atletas := db.atletas ++ [mkAtletaModel atleta_in freshId now cat.pk_id ct.pk_id] }
        freshId = some (mkAtletaModel atleta_in freshId now cat.pk_id ct.pk_id) :=
      findAtleta_append_fresh db (mkAtletaModel atleta_in freshId now cat.pk_id ct.pk_id)
        (fun a ha => hfresh a ha)
    have hfc : ({ db with atletas := db.atletas ++ [mkAtletaModel atleta_in freshId now cat.pk_id ct.pk_id] } : DB).categorias.find?
        (fun x => x.pk_id == cat.pk_id) = some cat :=
      find?_key_nodup (fun c => c.pk_id) db.categorias hnodupC cat hcatMem
    have hft : ({ db with atletas := db.atletas ++ [mkAtletaModel atleta_in freshId now cat.pk_id ct.pk_id] } : DB).centros.find?
        (fun x => x.pk_id == ct.pk_id) = some ct :=
      find?_key_nodup (fun c => c.pk_id) db.centros hnodupT ct hctMem
    have hser : atletaOutOfModel
        { db with atletas := db.atletas ++ [mkAtletaModel atleta_in freshId now cat.pk_id ct.pk_id] }
        (mkAtletaModel atleta_in freshId now cat.pk_id ct.pk_id) =
        some (mkAtletaOut atleta_in freshId now) := by
      rw [atletaOutOfModel_eq _ _ cat.pk_id ct.pk_id cat ct rfl rfl hfc hft]
      rw [hcatNome, hctNome]
      rfl
    simp only [atletaGetById, hfind, hser]

/-- Witness for C5: creating the sample athlete in the sample store and
fetching id 5 returns the identical body. -/
theorem atletaPost_getById_roundtrip_witness :
    (atletaPost dbNoAth sampleIn 5 9 true).1 = .ok 201 (mkAtletaOut sampleIn 5 9) ∧
    atletaGetById (atletaPost dbNoAth sampleIn 5 9 true).2 5 =
      .ok 200 (mkAtletaOut sampleIn 5 9) :=
  atletaPost_getById_roundtrip dbNoAth sampleIn 5 9 catRow ctRow (by decide) (by decide)
    (by decide) (by decide) (by decide)

/-- Claim C1 (code bug): the partial update merges exactly the supplied
fields into the returned representation, but the controller calls
`db_session.commit()` and `db_session.refresh(atleta)` without `await` on
the async session, so the merged record is never persisted: the store is
unchanged and a subsequent get-by-id still returns the pre-update record.
Concretely: patching athlete 1 with only `nome := "Novo"` returns the
merged body, yet the store still holds `nome = "Antigo"`. -/
theorem atletaPatch_merge_not_persisted :
    (atletaPatch dbFull 1 { nome := some "Novo", idade := none }).1 =
      .ok 200 { id := 1, create_at := 100, nome := "Novo", idade := 25,
                categoria := { nome := "Scale" }, centro_treinamento := { nome := "CT King" } } ∧
    (atletaPatch dbFull 1 { nome := some "Novo", idade := none }).2 = dbFull ∧
    atletaGetById (atletaPatch dbFull 1 { nome := some "Novo", idade := none }).2 1 =
      .ok 200 { id := 1, create_at := 100, nome := "Antigo", idade := 25,
                categoria := { nome := "Scale" }, centro_treinamento := { nome := "CT King" } } :=
  ⟨rfl, rfl, rfl⟩

/-- Claim C6 (code bug): deleting an existing athlete answers 204 with no
body, but the controller calls `db_session.delete(atleta)` and
`db_session.commit()` without `await`, so the row is never removed: the
store is unchanged and a subsequent get-by-id on the same id returns 200
with the athlete instead of 404. -/
theorem atletaDelete_row_not_removed :
    (atletaDelete dbFull 1).1 = .ok 204 () ∧
    (atletaDelete dbFull 1).2 = dbFull ∧
    atletaGetById (atletaDelete dbFull 1).2 1 =
      .ok 200 { id := 1, create_at := 100, nome := "Antigo", idade := 25,
                categoria := { nome := "Scale" }, centro_treinamento := { nome := "CT King" } } :=
  ⟨rfl, rfl, rfl⟩

theorem atletaPatch_db_unchanged (db : DB) (id : UUID) (u : AtletaUpdate) :
    (atletaPatch db id u).2 = db := by
  unfold atletaPatch
  split
  · rfl
  · split <;> rfl

theorem atletaDelete_db_unchanged (db : DB) (id : UUID) :
    (atletaDelete db id).2 = db := by
  unfold atletaDelete
  cases h : findAtletaById db id with
  | none => rfl
  | some a => rfl

/-- Claim C8: for each write operation of the API, whenever the request
fails — an existence check raises, or the awaited commit fails — the
durable store after the request equals the store before it: no partial
write survives. -/
theorem write_failure_rollback :
    (∀ (db : DB) (atleta_in : AtletaIn) (freshId : UUID) (now : Timestamp) (ck : Bool),
        ((atletaPost db atleta_in freshId now ck).1).isErr = true →
          (atletaPost db atleta_in freshId now ck).2 = db) ∧
    (∀ (db : DB) (id : UUID) (u : AtletaUpdate),
        ((atletaPatch db id u).1).isErr = true → (atletaPatch db id u).2 = db) ∧
    (∀ (db : DB) (id : UUID),
        ((atletaDelete db id).1).isErr = true → (atletaDelete db id).2 = db) ∧
    (∀ (db : DB) (centro_in : CentroTreinamentoIn) (freshId : UUID) (ck : Bool),
        ((centroPost db centro_in freshId ck).1).isErr = true →
          (centroPost db centro_in freshId ck).2 = db) ∧
    (∀ (db : DB) (nome : String) (freshId : UUID) (ck : Bool),
        ((categoriaPost db nome freshId ck).1).isErr = true →
          (categoriaPost db nome freshId ck).2 = db) := by
  refine ⟨?_, ?_, ?_, ?_, ?_⟩
  · intro db atleta_in freshId now ck h
    unfold atletaPost at h ⊢
    cases hcat : findCategoriaByNome db atleta_in.categoria.nome with
    | none => rfl
    | some cat =>
      cases hct : findCentroByNome db atleta_in.centro_treinamento.nome with
      | none => rfl
      | some ct =>
        cases ck with
        | false => rfl
        | true =>
          rw [hcat, hct] at h
          simp [Response.isErr] at h
  · intro db id u h
    exact atletaPatch_db_unchanged db id u
  · intro db id h
    exact atletaDelete_db_unchanged db id
  · intro db centro_in freshId ck h
    cases ck with
    | false => rfl
    | true => exact absurd h (by simp [centroPost, Response.isErr])
  · intro db nome freshId ck h
    cases ck with
    | false => rfl
    | true => exact absurd h (by simp [categoriaPost, Response.isErr])

/-- Witness for C8: each write, failing on a concrete store (missing
category for the create, missing athlete for update and delete, failing
commit for the center and category creates), leaves that store as it was. -/
theorem write_failure_rollback_witness :
    (atletaPost initDB sampleIn 5 9 true).2 = initDB ∧
    (atletaPatch initDB 3 { nome := none, idade := none }).2 = initDB ∧
    (atletaDelete initDB 3).2 = initDB ∧
    (centroPost initDB ctIn 5 false).2 = initDB ∧
    (categoriaPost initDB "Scale" 5 false).2 = initDB :=
  ⟨write_failure_rollback.1 initDB sampleIn 5 9 true (by decide),
   write_failure_rollback.2.1 initDB 3 { nome := none, idade := none } (by decide),
   write_failure_rollback.2.2.1 initDB 3 (by decide),
   write_failure_rollback.2.2.2.1 initDB ctIn 5 false (by decide),
   write_failure_rollback.2.2.2.2 initDB "Scale" 5 false (by decide)⟩

theorem storeInv_init : StoreInv initDB := by
  unfold StoreInv initDB
  refine ⟨?_, ?_, ?_, ?_, ?_⟩ <;> simp

theorem storeInv_atletaPost (db : DB) (atleta_in : AtletaIn) (freshId : UUID)
    (now : Timestamp) (ck : Bool) (h : StoreInv db) :
    StoreInv (atletaPost db atleta_in freshId now ck).2 := by
  unfold atletaPost
  cases hcat : findCategoriaByNome db atleta_in.categoria.nome with
  | none => exact h
  | some cat =>
    cases hct : findCentroByNome db atleta_in.centro_treinamento.nome with
    | none => exact h
    | some ct =>
      cases ck with
      | false => exact h
      | true =>
        obtain ⟨h1, h2, h3, h4, h5⟩ := h
        refine ⟨h1, h2, h3, h4, ?_⟩
        intro a ha
        rcases List.mem_append.1 ha with ha | ha
        · exact h5 a ha
        · rw [List.mem_singleton.1 ha]
          exact ⟨⟨cat.pk_id, rfl,
                   existsUnique_of_mem_nodup h2 (List.mem_of_find?_eq_some hcat)⟩,
                 ⟨ct.pk_id, rfl,
                   existsUnique_of_mem_nodup h4 (List.mem_of_find?_eq_some hct)⟩⟩

theorem storeInv_centroPost (db : DB) (centro_in : CentroTreinamentoIn)
    (freshId : UUID) (ck : Bool) (h : StoreInv db) :
    StoreInv (centroPost db centro_in freshId ck).2 := by
  obtain ⟨h1, h2, h3, h4, h5⟩ := h
  cases ck with
  | false => exact ⟨h1, h2, h3, h4, h5⟩
  | true =>
    refine ⟨fun c hc => Nat.lt_succ_of_lt (h1 c hc), h2, ?_, ?_, ?_⟩
    · intro ct hct
      rcases List.mem_append.1 hct with hct | hct
      · exact Nat.lt_succ_of_lt (h3 ct hct)
      · rw [List.mem_singleton.1 hct]
        exact Nat.lt_succ_self _
    · exact nodup_map_append_fresh (fun c => c.pk_id) db.centros
        (mkCentroModel (mkCentroOut centro_in freshId) db.nextPk) db.nextPk h3 rfl h4
    · intro a ha
      obtain ⟨hA, pk, hpk, hu⟩ := h5 a ha
      have hu' : ∃! c, c ∈ db.centros ++ [mkCentroModel (mkCentroOut centro_in freshId) db.nextPk] ∧
          c.pk_id = pk :=
        existsUnique_append_fresh (fun c => c.pk_id) db.centros
          (mkCentroModel (mkCentroOut centro_in freshId) db.nextPk) db.nextPk pk h3 rfl hu
      exact ⟨hA, pk, hpk, hu'⟩

theorem storeInv_categoriaPost (db : DB) (nome : String) (freshId : UUID)
    (ck : Bool) (h : StoreInv db) :
    StoreInv (categoriaPost db nome freshId ck).2 := by
  obtain ⟨h1, h2, h3, h4, h5⟩ := h
  cases ck with
  | false => exact ⟨h1, h2, h3, h4, h5⟩
  | true =>
    refine ⟨?_, ?_, fun ct hct => Nat.lt_succ_of_lt (h3 ct hct), h4, ?_⟩
    · intro c hc
      rcases List.mem_append.1 hc with hc | hc
      · exact Nat.lt_succ_of_lt (h1 c hc)
      · rw [List.mem_singleton.1 hc]
        exact Nat.lt_succ_self _
    · exact nodup_map_append_fresh (fun c => c.pk_id) db.categorias
        (mkCategoriaModel nome freshId db.nextPk) db.nextPk h1 rfl h2
    · intro a ha
      obtain ⟨⟨pk, hpk, hu⟩, hB⟩ := h5 a ha
      have hu' : ∃! c, c ∈ db.categorias ++ [mkCategoriaModel nome freshId db.nextPk] ∧
          c.pk_id = pk :=
        existsUnique_append_fresh (fun c => c.pk_id) db.categorias
          (mkCategoriaModel nome freshId db.nextPk) db.nextPk pk h1 rfl hu
      exact ⟨⟨pk, hpk, hu'⟩, hB⟩

theorem storeInv_step {db db' : DB} (h : StoreInv db) (hs : Step db db') :
    StoreInv db' := by
  cases hs with
  | atletaPost atleta_in freshId now ck =>
      exact storeInv_atletaPost db atleta_in freshId now ck h
  | atletaPatch id u =>
      rw [atletaPatch_db_unchanged]
      exact h
  | atletaDelete id =>
      rw [atletaDelete_db_unchanged]
      exact h
  | centroPost centro_in freshId ck =>
      exact storeInv_centroPost db centro_in freshId ck h
  | categoriaPost nome freshId ck =>
      exact storeInv_categoriaPost db nome freshId ck h

theorem storeInv_reachable {db : DB} (h : Reachable db) : StoreInv db := by
  induction h with
  | init => exact storeInv_init
  | step _ hs ih => exact storeInv_step ih hs

/-- Claim C7: in every store reachable from the empty deployment by any
sequence of the exposed operations (athlete create, partial update and
delete, training-center create, category create; the list and get-by-id
reads are pure functions of the store), every persisted athlete row
carries valid, non-null foreign keys referencing exactly one stored
category and exactly one stored training center. -/
theorem reachable_atleta_fk_valid (db : DB) (h : Reachable db) :
    ∀ a ∈ db.atletas, FKValid db a :=
  (storeInv_reachable h).2.2.2.2

/-- The store reached by creating the sample category, the sample training
center, and then the sample athlete. -/
def dbReached : DB :=
  (atletaPost (centroPost (categoriaPost initDB "Scale" 10 true).2 ctIn 11 true).2
    sampleIn 1 100 true).2

/-- Witness for C7: in the concrete reachable store, the created athlete
row has valid foreign keys. -/
theorem reachable_atleta_fk_valid_witness :
    FKValid dbReached
      { id := 1, create_at := 100, nome := "João", idade := 25,
        categoria_id := some 0, centro_treinamento_id := some 1 } :=
  reachable_atleta_fk_valid dbReached
    (Reachable.step
      (Reachable.step
        (Reachable.step Reachable.init (Step.categoriaPost initDB "Scale" 10 true))
        (Step.centroPost _ ctIn 11 true))
      (Step.atletaPost _ sampleIn 1 100 true))
    _ (by decide)
